import Mathlib

/-!
Verification of the resource-estimation subsystem of the PIPseeker workflow
wrapper (`wf/resource_estimator.py`, the reference-path resolution of
`wf/configurations.py`, and the run/upload tail of `wf/pipseeker.py`).

Embedding conventions:
* Python floats are modelled exactly as rationals (every literal occurring in
  the formulas, such as 3.5, 1.25 or 0.0011, is exactly representable), and
  Python `int(x)` on the nonnegative quantities that occur here is `Int.floor`.
* `LatchDir.iterdir()` is modelled as a list of entries, each carrying the
  two predicates actually tested by the code (`isinstance(file, LatchFile)`
  and `path.endswith(".fastq.gz")`) together with `file.size()`.
* Filesystem and network effects are passed in as explicit environment
  values: the result of the HTTP HEAD probe on the prebuilt-reference URL,
  `os.path.getsize` of a reference path, and the outcome of listing a
  reference directory.
* Fallible Python code (raised exceptions) is modelled with `Except PyError`.
* `PIPseekerMode` is modelled from the spec: the enum is imported by the code
  from `wf.configurations` but its definition is not in the sources; the spec
  names exactly the three modes `full`, `cells` and `buildmapref`.
-/

/-- Modelled from the spec: the three mutually exclusive execution modes
(`full`, `cells`, `buildmapref`); the enum itself is referenced but not
defined in the available sources. -/
inductive PIPseekerMode
  | full
  | cells
  | buildmapref
deriving DecidableEq

/-- The `GenomeType` enum of `configurations.py`. -/
inductive GenomeType
  | human
  | mouse
  | human_mouse
  | drosophilia
  | zebrafish
  | arabidopsis_thaliana
deriving DecidableEq

/-- The `genome_source` string: the code only ever compares it with the two
literals `prebuilt_genome` and `custom_prebuilt_genome`; every other value
(including `None`) behaves identically and is collapsed into `other`. -/
inductive GenomeSource
  | prebuilt_genome
  | custom_prebuilt_genome
  | other
deriving DecidableEq

/-- Python exceptions that the modelled code can raise. -/
inductive PyError
  | valueError
  | attributeError
  | unboundLocalError
  | osError
  | calledProcessError (returncode : ℤ)
deriving DecidableEq

/-- One entry of `LatchDir.iterdir()`: whether it is a `LatchFile`, whether
its path ends with `.fastq.gz`, and its size in bytes. -/
structure DirEntry where
  is_latch_file : Bool
  ends_with_fastq_gz : Bool
  size : ℕ
deriving DecidableEq

/-- A `LatchDir` is its `iterdir()` listing. -/
abbrev LatchDir := List DirEntry

/-- A single element of `PosixPath.suffixes`.  The code compares the first
suffix against the string constants `.tar`, `.tar.gz` and `.zip`; all other
suffix strings are collapsed into `other` (note that `tar_gz` stands for the
two-part string `.tar.gz`, which `PosixPath.suffixes` can never produce as a
single element, but which the code nevertheless compares against). -/
inductive Sfx
  | tar
  | gz
  | zip
  | tar_gz
  | other
deriving DecidableEq

/-- Outcome of sizing a reference directory
(`sum(os.path.getsize(...) for p in os.listdir(...))`): all sizes obtained;
`getsize` raised while `os.listdir` works (the handler builds, but does not
raise, a `ValueError`, so the size silently stays 0); or `os.listdir` itself
raises (the handler then re-raises while formatting its message). -/
inductive DirProbe
  | allSizes (sizes : List ℕ)
  | sizeError
  | listError
deriving DecidableEq

/-- A reference path (a `PosixPath`) together with the filesystem facts the
estimator reads from it. -/
structure RefPath where
  suffixes : List Sfx
  file_size : ℕ
  dir_probe : DirProbe
deriving DecidableEq

/-- Result of `requests.head` on the prebuilt-reference URL: either a
response with a status code and an optional parsed `Content-Length` header,
or a `requests.exceptions.RequestException`. -/
inductive HeadResult
  | response (status_code : ℕ) (content_length : Option ℕ)
  | requestException
deriving DecidableEq

/-- Python truthiness of an `Optional[int]`: `None` and `0` are falsy. -/
def truthy_int (o : Option ℤ) : Bool :=
  match o with
  | some v => v != 0
  | none => false

/-- `get_s3_object_size`: returns the parsed `Content-Length` on a 200
response, and `None` on any other status code, a missing header, or a
request exception. -/
def get_s3_object_size (head : HeadResult) : Option ℕ :=
  match head with
  | HeadResult.response status_code content_length =>
    if status_code = 200 then content_length else none
  | HeadResult.requestException => none

/-- `get_downsample_factor`: requires both inputs truthy (Python truthiness,
so `0` counts as absent), then divides. -/
def get_downsample_factor (downsample_to input_reads : Option ℤ) : Option ℚ :=
  match downsample_to, input_reads with
  | some d, some i =>
    if d ≠ 0 ∧ i ≠ 0 then
      if i ≠ 0 then some ((d : ℚ) / (i : ℚ)) else none
    else none
  | _, _ => none

/-- `get_fastqs_size_bytes`: sums the sizes of the `.fastq.gz` `LatchFile`
entries of the directory.  The locally computed GB figure is scaled by the
downsample factor only for the printout; the function returns the raw byte
count. -/
def get_fastqs_size_bytes (fastq_directory : Option LatchDir)
    (downsample_factor : Option ℚ) : ℕ :=
  match fastq_directory with
  | none => 0
  | some dir =>
    let fastqs_size_bytes : ℕ :=
      (dir.filter fun file => file.is_latch_file && file.ends_with_fastq_gz).foldr
        (fun file acc => file.size + acc) 0
    let fastqs_size_gb : ℚ := (fastqs_size_bytes : ℚ) / 1024 ^ 3
    let _scaled_gb : ℚ :=
      match downsample_factor with
      | some factor => fastqs_size_gb * factor
      | none => fastqs_size_gb
    fastqs_size_bytes

/-- `baseline_ram_estimator` (result in bytes; barcoding is capped at 16
threads before the formula is applied). -/
def baseline_ram_estimator (fastqs_size_gb : ℚ) (num_threads : ℤ) : ℚ :=
  let num_threads := min num_threads 16
  (2.24 + 0.01 * fastqs_size_gb + 0.0011 * (num_threads : ℚ) * fastqs_size_gb) * 1024 ^ 3

/-- `barcoding_ram_estimator` (result in bytes; `r1r2_length_sum` is fixed
at the worst-case 300 bp). -/
def barcoding_ram_estimator (baseline_ram_bytes : ℚ) (num_threads : ℤ) : ℚ :=
  let r1r2_length_sum : ℚ := 300
  let barcoding_ram : ℚ := 1024 ^ 3 *
    (1.23 * (num_threads : ℚ) + 0.0166 * r1r2_length_sum +
      0.009 * (num_threads : ℚ) * r1r2_length_sum)
  baseline_ram_bytes + barcoding_ram

/-- `star_ram_estimator`: note that, exactly as in the source, only the
`0.23 * num_threads` term is converted to bytes; the `0.55` stays as written. -/
def star_ram_estimator (star_index_size_bytes : ℚ) (num_threads : ℤ)
    (baseline_ram_bytes : ℚ) (sorted_bam : Bool) (safety_margin : ℚ) : ℚ :=
  let star_ram_bytes : ℚ :=
    0.93 * star_index_size_bytes + (0.55 + (0.23 * (num_threads : ℚ)) * 1024 ^ 3)
  if !sorted_bam then safety_margin * (baseline_ram_bytes + star_ram_bytes)
  else baseline_ram_bytes + 2 * star_ram_bytes

/-- `molinfo_ram_estimator` (result in bytes; the `0.772 * fastqs_size_gb`
term is, as in the source, not converted to bytes). -/
def molinfo_ram_estimator (baseline_ram_bytes : ℚ) (fastqs_size_bytes : ℕ)
    (num_threads : ℤ) (exons_only : Bool) : ℚ :=
  let fastqs_size_gb : ℚ := (fastqs_size_bytes : ℚ) / 1024 ^ 3
  let exons_only_int : ℚ := if exons_only then 1 else 0
  baseline_ram_bytes + 0.772 * fastqs_size_gb +
    1024 ^ 3 * (0.54 * exons_only_int + 0.525 * (num_threads : ℚ) +
      0.71 * (num_threads : ℚ) * exons_only_int)

/-- Total size in bytes of the `LatchFile` entries of a directory, as summed
by the loop in `get_previous_dir_size`. -/
def previous_dir_total_bytes (previous_directory : LatchDir) : ℕ :=
  (previous_directory.filter fun file => file.is_latch_file).foldr
    (fun file acc => file.size + acc) 0

/-- `get_previous_dir_size`: sums the `LatchFile` sizes and then computes
`int(total / 1024 ** 3)` — the returned value is a GiB count even though the
source names it `previous_dir_size_bytes`. -/
def get_previous_dir_size (previous_directory : LatchDir) : ℕ :=
  previous_dir_total_bytes previous_directory / 1024 ^ 3

/-- `get_mapping_reference(..., get_path_only=True)` of `configurations.py`:
for a prebuilt genome it returns the remote archive URL of the selected
genome (`Sum.inl`), for a custom source the supplied directory or archive
path (`Sum.inr`), and `None` for any other source.  A prebuilt source with
no genome selected returns `None`; a custom source with neither input bound
raises `UnboundLocalError` at the final `return reference_p`. -/
def get_mapping_reference_path (genome_source : GenomeSource)
    (prebuilt_genome : Option GenomeType) (custom_prebuilt_genome : Option RefPath)
    (custom_prebuilt_genome_zipped : Option RefPath) :
    Except PyError (Option (Sum GenomeType RefPath)) :=
  match genome_source with
  | GenomeSource.prebuilt_genome =>
    match prebuilt_genome with
    | some g => Except.ok (some (Sum.inl g))
    | none => Except.ok none
  | GenomeSource.custom_prebuilt_genome =>
    match custom_prebuilt_genome with
    | some p => Except.ok (some (Sum.inr p))
    | none =>
      match custom_prebuilt_genome_zipped with
      | some p => Except.ok (some (Sum.inr p))
      | none => Except.error PyError.unboundLocalError
  | GenomeSource.other => Except.ok none

/-- `mapping_ref_size_estimator`.  For a prebuilt genome the size comes from
the HEAD probe, with a fixed 24 GiB fallback when the probe yields `None`
(a prebuilt source with no genome selected passes `None` to
`get_s3_object_size`, which raises `AttributeError` on `None.replace`).
For a file path the first suffix decides whether the 1.25 decompression
factor applies; a suffix-less path is sized as a directory. -/
def mapping_ref_size_estimator (genome_source : GenomeSource)
    (prebuilt_genome : Option GenomeType) (custom_prebuilt_genome : Option RefPath)
    (custom_prebuilt_genome_zipped : Option RefPath) (head : HeadResult) :
    Except PyError ℚ :=
  match get_mapping_reference_path genome_source prebuilt_genome custom_prebuilt_genome
      custom_prebuilt_genome_zipped with
  | Except.error e => Except.error e
  | Except.ok reference_p =>
    if genome_source = GenomeSource.prebuilt_genome then
      match reference_p with
      | some (Sum.inl _g) =>
        match get_s3_object_size head with
        | some star_index_size_bytes => Except.ok ((star_index_size_bytes : ℚ))
        | none => Except.ok ((24 : ℚ) * 1024 ^ 3)
      | _ => Except.error PyError.attributeError
    else
      match reference_p with
      | some (Sum.inr p) =>
        match p.suffixes with
        | [] =>
          match p.dir_probe with
          | DirProbe.allSizes sizes => Except.ok ((sizes.foldr (· + ·) 0 : ℕ) : ℚ)
          | DirProbe.sizeError => Except.ok 0
          | DirProbe.listError => Except.error PyError.osError
        | s0 :: _ =>
          if s0 = Sfx.tar ∨ s0 = Sfx.tar_gz ∨ s0 = Sfx.zip then
            Except.ok (1.25 * (p.file_size : ℚ))
          else
            Except.ok ((p.file_size : ℚ))
      | some (Sum.inl _) => Except.ok 0
      | none => Except.ok 0

/-- `get_num_threads`: an explicit override is returned as is, clamped to 64
from above; otherwise the thread count is a bucket of the FASTQ size (full),
of the previous-directory size (cells), or the constant 64 (buildmapref).
A missing mode raises `ValueError`; cells mode with no previous directory
raises on `None.iterdir()`. -/
def get_num_threads (pipseeker_mode : Option PIPseekerMode)
    (fastq_directory : Option LatchDir) (previous : Option LatchDir)
    (override_cpu : Option ℤ) : Except PyError ℤ :=
  match override_cpu with
  | some c => if c > 64 then Except.ok 64 else Except.ok c
  | none =>
    match pipseeker_mode with
    | none => Except.error PyError.valueError
    | some PIPseekerMode.full =>
      let fastqs_size_bytes := get_fastqs_size_bytes fastq_directory none
      let fastqs_size_gb : ℚ := (fastqs_size_bytes : ℚ) / 1024 ^ 3
      Except.ok (if fastqs_size_gb < 1 then 8
        else if fastqs_size_gb < 4 then 16
        else if fastqs_size_gb < 8 then 32
        else if fastqs_size_gb < 16 then 48
        else 64)
    | some PIPseekerMode.cells =>
      match previous with
      | none => Except.error PyError.attributeError
      | some prev =>
        let previous_dir_size_bytes := get_previous_dir_size prev
        let previous_dir_size_gb : ℚ := (previous_dir_size_bytes : ℚ) / 1024 ^ 3
        Except.ok (if previous_dir_size_gb < 1 then 8
          else if previous_dir_size_gb < 4 then 16
          else if previous_dir_size_gb < 8 then 32
          else if previous_dir_size_gb < 16 then 48
          else 64)
    | some PIPseekerMode.buildmapref => Except.ok 64

/-- Body of `get_disk_requirement_gb` after the override check. -/
def get_disk_requirement_core (pipseeker_mode : Option PIPseekerMode)
    (previous fastq_directory snt_fastq hto_fastq : Option LatchDir)
    (sorted_bam : Bool) (downsample_to input_reads : Option ℤ)
    (genome_source : GenomeSource) (prebuilt_genome : Option GenomeType)
    (custom_prebuilt_genome custom_prebuilt_genome_zipped : Option RefPath)
    (safety_margin : ℚ) (head : HeadResult) : Except PyError ℤ :=
  match pipseeker_mode with
  | none => Except.error PyError.valueError
  | some PIPseekerMode.full =>
    let fastqs_size_bytes : ℚ :=
      match fastq_directory with
      | some _ =>
        let downsample_factor := get_downsample_factor downsample_to input_reads
        ((get_fastqs_size_bytes fastq_directory downsample_factor : ℕ) : ℚ)
      | none => 0
    let snt_fastq_size_bytes : ℚ :=
      match snt_fastq with
      | some _ => ((get_fastqs_size_bytes snt_fastq none : ℕ) : ℚ)
      | none => 0
    let hto_fastq_size_bytes : ℚ :=
      match hto_fastq with
      | some _ => ((get_fastqs_size_bytes hto_fastq none : ℕ) : ℚ)
      | none => 0
    let fastqs_size_bytes : ℚ :=
      if sorted_bam then
        fastqs_size_bytes * 12 + snt_fastq_size_bytes + hto_fastq_size_bytes
      else
        fastqs_size_bytes * 3.5 + snt_fastq_size_bytes + hto_fastq_size_bytes
    match mapping_ref_size_estimator genome_source prebuilt_genome custom_prebuilt_genome
        custom_prebuilt_genome_zipped head with
    | Except.error e => Except.error e
    | Except.ok star_index_size_bytes =>
      let star_index_size_bytes : ℚ :=
        if prebuilt_genome.isSome || custom_prebuilt_genome_zipped.isSome then
          star_index_size_bytes * 2.25
        else star_index_size_bytes
      let required_space_gb : ℚ :=
        (fastqs_size_bytes + star_index_size_bytes + 1) * safety_margin / 1024 ^ 3
      Except.ok ⌊max required_space_gb 2⌋
  | some PIPseekerMode.cells =>
    match previous with
    | none => Except.error PyError.attributeError
    | some prev =>
      let previous_dir_size_bytes := get_previous_dir_size prev
      let required_space_gb : ℚ := (previous_dir_size_bytes : ℚ) * safety_margin / 1024 ^ 3
      Except.ok ⌊max required_space_gb 2⌋
  | some PIPseekerMode.buildmapref => Except.ok 100

/-- `get_disk_requirement_gb`: `if override_disk_gb:` is a truthiness test,
so a zero override falls through to the size-based computation. -/
def get_disk_requirement_gb (pipseeker_mode : Option PIPseekerMode)
    (previous fastq_directory snt_fastq hto_fastq : Option LatchDir)
    (sorted_bam : Bool) (downsample_to input_reads : Option ℤ)
    (genome_source : GenomeSource) (prebuilt_genome : Option GenomeType)
    (custom_prebuilt_genome custom_prebuilt_genome_zipped : Option RefPath)
    (safety_margin : ℚ) (override_disk_gb : Option ℤ) (head : HeadResult) :
    Except PyError ℤ :=
  if truthy_int override_disk_gb then Except.ok (override_disk_gb.getD 0)
  else
    get_disk_requirement_core pipseeker_mode previous fastq_directory snt_fastq hto_fastq
      sorted_bam downsample_to input_reads genome_source prebuilt_genome
      custom_prebuilt_genome custom_prebuilt_genome_zipped safety_margin head

/-- Body of `get_memory_requirement_gb` after the override check. -/
def get_memory_requirement_core (pipseeker_mode : Option PIPseekerMode)
    (previous fastq_directory : Option LatchDir) (genome_source : GenomeSource)
    (prebuilt_genome : Option GenomeType)
    (custom_prebuilt_genome custom_prebuilt_genome_zipped : Option RefPath)
    (downsample_to input_reads : Option ℤ) (sorted_bam : Bool)
    (head : HeadResult) : Except PyError ℤ :=
  match pipseeker_mode with
  | none => Except.error PyError.valueError
  | some PIPseekerMode.full =>
    let downsample_factor := get_downsample_factor downsample_to input_reads
    let fastqs_size_bytes := get_fastqs_size_bytes fastq_directory downsample_factor
    let fastqs_size_gb : ℚ := (fastqs_size_bytes : ℚ) / 1024 ^ 3
    match get_num_threads (some PIPseekerMode.full) fastq_directory none none with
    | Except.error e => Except.error e
    | Except.ok num_threads =>
      let baseline_ram_bytes := baseline_ram_estimator fastqs_size_gb num_threads
      let barcoding_ram_bytes := barcoding_ram_estimator baseline_ram_bytes num_threads
      match mapping_ref_size_estimator genome_source prebuilt_genome custom_prebuilt_genome
          custom_prebuilt_genome_zipped head with
      | Except.error e => Except.error e
      | Except.ok star_index_size_bytes =>
        let star_ram_bytes := star_ram_estimator star_index_size_bytes num_threads
          baseline_ram_bytes sorted_bam 1.1
        let molinfo_ram_bytes := molinfo_ram_estimator baseline_ram_bytes fastqs_size_bytes
          num_threads false
        Except.ok ⌊max (max barcoding_ram_bytes star_ram_bytes) molinfo_ram_bytes / 1024 ^ 3⌋
  | some PIPseekerMode.cells =>
    match previous with
    | none => Except.error PyError.attributeError
    | some prev =>
      let previous_dir_size_bytes := get_previous_dir_size prev
      let previous_dir_size_gb : ℚ := (previous_dir_size_bytes : ℚ) / 1024 ^ 3
      Except.ok (min ⌊previous_dir_size_gb / 1024 ^ 3⌋ 100)
  | some PIPseekerMode.buildmapref => Except.ok 50

/-- `get_memory_requirement_gb`: `if override_ram_gb:` is a truthiness test,
so a zero override falls through to the size-based computation. -/
def get_memory_requirement_gb (pipseeker_mode : Option PIPseekerMode)
    (previous fastq_directory : Option LatchDir) (genome_source : GenomeSource)
    (prebuilt_genome : Option GenomeType)
    (custom_prebuilt_genome custom_prebuilt_genome_zipped : Option RefPath)
    (downsample_to input_reads : Option ℤ) (sorted_bam : Bool)
    (override_ram_gb : Option ℤ) (head : HeadResult) : Except PyError ℤ :=
  if truthy_int override_ram_gb then Except.ok (override_ram_gb.getD 0)
  else
    get_memory_requirement_core pipseeker_mode previous fastq_directory genome_source
      prebuilt_genome custom_prebuilt_genome custom_prebuilt_genome_zipped
      downsample_to input_reads sorted_bam head

/-- The thread-count ladder of `get_num_threads`, expressed on exact byte
thresholds (1, 4, 8 and 16 GiB). -/
def threads_bucket (size_bytes : ℕ) : ℤ :=
  if size_bytes < 1024 ^ 3 then 8
  else if size_bytes < 4 * 1024 ^ 3 then 16
  else if size_bytes < 8 * 1024 ^ 3 then 32
  else if size_bytes < 16 * 1024 ^ 3 then 48
  else 64

/-- Outcome of `subprocess.run(pipseeker_cmd, check=True)`: the process ran
and returned a code (with `check=True` raising `CalledProcessError` on a
non-zero code), or spawning itself failed. -/
inductive SubprocessOutcome
  | completed (returncode : ℤ)
  | spawnFailure
deriving DecidableEq

/-- `subprocess.run(..., check=True)`. -/
def subprocess_run_check (outcome : SubprocessOutcome) : Except PyError Unit :=
  match outcome with
  | SubprocessOutcome.completed returncode =>
    if returncode = 0 then Except.ok ()
    else Except.error (PyError.calledProcessError returncode)
  | SubprocessOutcome.spawnFailure => Except.error PyError.osError

/-- The value returned by `pipseeker_task`: a `LatchOutputDir` built from the
local output directory and the remote destination path. -/
structure LatchOutputDir where
  local_dir : String
  remote_path : String
deriving DecidableEq

/-- The `except subprocess.CalledProcessError` clause: that exception is
logged and swallowed; any other in-flight exception passes through. -/
def try_except_called_process_error (r : Except PyError Unit) : Except PyError Unit :=
  match r with
  | Except.error (PyError.calledProcessError _) => Except.ok ()
  | r => r

/-- A `return` inside a `finally` block: the handle is returned and any
pending exception is discarded. -/
def finally_return_output_dir (pending : Except PyError Unit)
    (result : LatchOutputDir) : Except PyError LatchOutputDir :=
  match pending with
  | Except.ok _ => Except.ok result
  | Except.error _ => Except.ok result

/-- The run/upload tail of `pipseeker_task`: run the assembled command under
`try`/`except CalledProcessError`/`finally: return LatchOutputDir(...)`. -/
def pipseeker_task_run_section (local_output_dir destination_directory : String)
    (outcome : SubprocessOutcome) : Except PyError LatchOutputDir :=
  finally_return_output_dir
    (try_except_called_process_error (subprocess_run_check outcome))
    (LatchOutputDir.mk local_output_dir destination_directory)

theorem gb_lt_one (b : ℕ) : ((b : ℚ) / 1024 ^ 3 < 1) ↔ b < 1024 ^ 3 := by
  rw [div_lt_iff₀ (by norm_num)]
  norm_cast

theorem gb_lt_four (b : ℕ) : ((b : ℚ) / 1024 ^ 3 < 4) ↔ b < 4 * 1024 ^ 3 := by
  rw [div_lt_iff₀ (by norm_num)]
  norm_cast

theorem gb_lt_eight (b : ℕ) : ((b : ℚ) / 1024 ^ 3 < 8) ↔ b < 8 * 1024 ^ 3 := by
  rw [div_lt_iff₀ (by norm_num)]
  norm_cast

theorem gb_lt_sixteen (b : ℕ) : ((b : ℚ) / 1024 ^ 3 < 16) ↔ b < 16 * 1024 ^ 3 := by
  rw [div_lt_iff₀ (by norm_num)]
  norm_cast

theorem get_fastqs_size_bytes_factor_none (d : Option LatchDir) (f : Option ℚ) :
    get_fastqs_size_bytes d f = get_fastqs_size_bytes d none := by
  cases d <;> rfl

theorem mapping_ref_other_eval (prebuilt_genome : Option GenomeType)
    (custom_prebuilt_genome custom_prebuilt_genome_zipped : Option RefPath)
    (head : HeadResult) :
    mapping_ref_size_estimator GenomeSource.other prebuilt_genome custom_prebuilt_genome
      custom_prebuilt_genome_zipped head = Except.ok 0 := rfl

theorem get_num_threads_full_eval (d p : Option LatchDir) :
    get_num_threads (some PIPseekerMode.full) d p none =
      Except.ok (threads_bucket (get_fastqs_size_bytes d none)) := by
  simp only [get_num_threads, threads_bucket, gb_lt_one, gb_lt_four, gb_lt_eight, gb_lt_sixteen]

theorem get_num_threads_cells_eval (d : Option LatchDir) (p : LatchDir) :
    get_num_threads (some PIPseekerMode.cells) d (some p) none =
      Except.ok (threads_bucket (get_previous_dir_size p)) := by
  simp only [get_num_threads, threads_bucket, gb_lt_one, gb_lt_four, gb_lt_eight, gb_lt_sixteen]

theorem threads_bucket_mono {a b : ℕ} (h : a ≤ b) : threads_bucket a ≤ threads_bucket b := by
  unfold threads_bucket
  split_ifs <;> omega

theorem threads_bucket_le_64 (a : ℕ) : threads_bucket a ≤ 64 := by
  unfold threads_bucket
  split_ifs <;> omega

/-- C2: for every mode and byte-size input, `get_num_threads` is a monotone
non-decreasing step function of the input size; in full mode the buckets are
8/16/32/48/64 threads with thresholds at 1, 4, 8 and 16 GiB of total FASTQ
size; and every returned value, override or not, is at most 64. -/
theorem get_num_threads_step_monotone_capped :
    (∀ d : Option LatchDir,
      get_num_threads (some PIPseekerMode.full) d none none =
        Except.ok (if get_fastqs_size_bytes d none < 1024 ^ 3 then 8
          else if get_fastqs_size_bytes d none < 4 * 1024 ^ 3 then 16
          else if get_fastqs_size_bytes d none < 8 * 1024 ^ 3 then 32
          else if get_fastqs_size_bytes d none < 16 * 1024 ^ 3 then 48
          else 64))
  ∧ (∀ (m : Option PIPseekerMode) (d1 d2 p1 p2 : Option LatchDir) (o : Option ℤ) (n1 n2 : ℤ),
      get_fastqs_size_bytes d1 none ≤ get_fastqs_size_bytes d2 none →
      previous_dir_total_bytes (p1.getD []) ≤ previous_dir_total_bytes (p2.getD []) →
      get_num_threads m d1 p1 o = Except.ok n1 →
      get_num_threads m d2 p2 o = Except.ok n2 → n1 ≤ n2)
  ∧ (∀ (m : Option PIPseekerMode) (d p : Option LatchDir) (o : Option ℤ) (n : ℤ),
      get_num_threads m d p o = Except.ok n → n ≤ 64) := by
  refine ⟨fun d => get_num_threads_full_eval d none, ?_, ?_⟩
  · intro m d1 d2 p1 p2 o n1 n2 hfastq hprev h1 h2
    cases o with
    | some c =>
      simp only [get_num_threads] at h1 h2
      split_ifs at h1 h2 <;> simp_all
    | none =>
      cases m with
      | none => simp [get_num_threads] at h1
      | some mode =>
        cases mode with
        | full =>
          rw [get_num_threads_full_eval] at h1 h2
          simp only [Except.ok.injEq] at h1 h2
          subst h1
          subst h2
          exact threads_bucket_mono hfastq
        | cells =>
          cases p1 with
          | none => simp [get_num_threads] at h1
          | some q1 =>
            cases p2 with
            | none => simp [get_num_threads] at h2
            | some q2 =>
              rw [get_num_threads_cells_eval] at h1 h2
              simp only [Except.ok.injEq] at h1 h2
              subst h1
              subst h2
              refine threads_bucket_mono (Nat.div_le_div_right ?_)
              simpa using hprev
        | buildmapref =>
          simp only [get_num_threads, Except.ok.injEq] at h1 h2
          omega
  · intro m d p o n h
    cases o with
    | some c =>
      simp only [get_num_threads] at h
      split_ifs at h <;> simp_all
    | none =>
      cases m with
      | none => simp [get_num_threads] at h
      | some mode =>
        cases mode with
        | full =>
          rw [get_num_threads_full_eval] at h
          simp only [Except.ok.injEq] at h
          subst h
          exact threads_bucket_le_64 _
        | cells =>
          cases p with
          | none => simp [get_num_threads] at h
          | some q =>
            rw [get_num_threads_cells_eval] at h
            simp only [Except.ok.injEq] at h
            subst h
            exact threads_bucket_le_64 _
        | buildmapref =>
          simp only [get_num_threads, Except.ok.injEq] at h
          omega

/-- Witness for C2 at concrete inputs: the full-mode step value at a 5 GiB
directory, monotonicity between a 2 GiB and a 5 GiB directory, and the 64
cap for an oversized override. -/
theorem get_num_threads_step_monotone_capped_witness :
    ((16 : ℤ) ≤ 32 ∧ (64 : ℤ) ≤ 64) := by
  constructor
  · refine get_num_threads_step_monotone_capped.2.1 (some PIPseekerMode.full)
      (some [DirEntry.mk true true (2 * 1024 ^ 3)])
      (some [DirEntry.mk true true (5 * 1024 ^ 3)]) none none none 16 32 (by
        norm_num [get_fastqs_size_bytes]) (by norm_num [previous_dir_total_bytes]) ?_ ?_
    · rw [get_num_threads_full_eval]
      norm_num [threads_bucket, get_fastqs_size_bytes]
    · rw [get_num_threads_full_eval]
      norm_num [threads_bucket, get_fastqs_size_bytes]
  · exact get_num_threads_step_monotone_capped.2.2 (some PIPseekerMode.full) none none
      (some 1000) 64 (by norm_num [get_num_threads])

/-- C7: whenever the remote size probe yields `None` (non-200 status or a
request exception), `mapping_ref_size_estimator` for a selected prebuilt
genome does not raise and returns the fixed worst case of 24 GiB. -/
theorem mapping_ref_prebuilt_probe_failure_24gb (prebuilt_genome : GenomeType)
    (custom_prebuilt_genome custom_prebuilt_genome_zipped : Option RefPath)
    (head : HeadResult) (hprobe : get_s3_object_size head = none) :
    mapping_ref_size_estimator GenomeSource.prebuilt_genome (some prebuilt_genome)
      custom_prebuilt_genome custom_prebuilt_genome_zipped head =
      Except.ok ((24 : ℚ) * 1024 ^ 3) := by
  simp [mapping_ref_size_estimator, get_mapping_reference_path, hprobe]

/-- Witness for C7: a request exception while probing the human prebuilt
reference yields the 24 GiB fallback. -/
theorem mapping_ref_prebuilt_probe_failure_24gb_witness :
    get_s3_object_size HeadResult.requestException = none ∧
      mapping_ref_size_estimator GenomeSource.prebuilt_genome (some GenomeType.human)
        none none HeadResult.requestException = Except.ok ((24 : ℚ) * 1024 ^ 3) :=
  ⟨rfl, mapping_ref_prebuilt_probe_failure_24gb GenomeType.human none none
    HeadResult.requestException rfl⟩

/-- C8: the run/upload tail of `pipseeker_task` returns an output-directory
handle pointing at the local output directory and the remote destination for
every subprocess outcome — a non-zero exit (and even a spawn failure) is
swallowed and never escalates to the caller. -/
theorem pipseeker_task_always_returns_output_dir
    (local_output_dir destination_directory : String) (outcome : SubprocessOutcome) :
    pipseeker_task_run_section local_output_dir destination_directory outcome =
      Except.ok (LatchOutputDir.mk local_output_dir destination_directory) := by
  cases outcome with
  | completed returncode =>
    by_cases h : returncode = 0 <;>
      simp [pipseeker_task_run_section, finally_return_output_dir,
        try_except_called_process_error, subprocess_run_check, h]
  | spawnFailure =>
    simp [pipseeker_task_run_section, finally_return_output_dir,
      try_except_called_process_error, subprocess_run_check]

/-- C10: `get_fastqs_size_bytes` is independent of the downsample factor and
equals the sum of the `.fastq.gz` file sizes; consequently `downsample_to`
and `input_reads` have no effect on the disk and memory estimates. -/
theorem downsample_factor_has_no_effect :
    (∀ (fastq_directory : Option LatchDir) (f1 f2 : Option ℚ),
      get_fastqs_size_bytes fastq_directory f1 = get_fastqs_size_bytes fastq_directory f2)
  ∧ (∀ (fastq_directory : Option LatchDir) (f : Option ℚ),
      get_fastqs_size_bytes fastq_directory f =
        ((fastq_directory.getD []).filter
            fun file => file.is_latch_file && file.ends_with_fastq_gz).foldr
          (fun file acc => file.size + acc) 0)
  ∧ (∀ (pipseeker_mode : Option PIPseekerMode)
      (previous fastq_directory snt_fastq hto_fastq : Option LatchDir) (sorted_bam : Bool)
      (dt1 ir1 dt2 ir2 : Option ℤ) (genome_source : GenomeSource)
      (prebuilt_genome : Option GenomeType)
      (custom_prebuilt_genome custom_prebuilt_genome_zipped : Option RefPath)
      (safety_margin : ℚ) (override_disk_gb : Option ℤ) (head : HeadResult),
      get_disk_requirement_gb pipseeker_mode previous fastq_directory snt_fastq hto_fastq
          sorted_bam dt1 ir1 genome_source prebuilt_genome custom_prebuilt_genome
          custom_prebuilt_genome_zipped safety_margin override_disk_gb head =
        get_disk_requirement_gb pipseeker_mode previous fastq_directory snt_fastq hto_fastq
          sorted_bam dt2 ir2 genome_source prebuilt_genome custom_prebuilt_genome
          custom_prebuilt_genome_zipped safety_margin override_disk_gb head)
  ∧ (∀ (pipseeker_mode : Option PIPseekerMode) (previous fastq_directory : Option LatchDir)
      (genome_source : GenomeSource) (prebuilt_genome : Option GenomeType)
      (custom_prebuilt_genome custom_prebuilt_genome_zipped : Option RefPath)
      (dt1 ir1 dt2 ir2 : Option ℤ) (sorted_bam : Bool) (override_ram_gb : Option ℤ)
      (head : HeadResult),
      get_memory_requirement_gb pipseeker_mode previous fastq_directory genome_source
          prebuilt_genome custom_prebuilt_genome custom_prebuilt_genome_zipped
          dt1 ir1 sorted_bam override_ram_gb head =
        get_memory_requirement_gb pipseeker_mode previous fastq_directory genome_source
          prebuilt_genome custom_prebuilt_genome custom_prebuilt_genome_zipped
          dt2 ir2 sorted_bam override_ram_gb head) := by
  refine ⟨?_, ?_, ?_, ?_⟩
  · intro d f1 f2
    rw [get_fastqs_size_bytes_factor_none d f1, get_fastqs_size_bytes_factor_none d f2]
  · intro d f
    cases d <;> rfl
  · intro m previous d snt hto sorted dt1 ir1 dt2 ir2 gs pg cpg cpz margin o head
    simp only [get_disk_requirement_gb, get_disk_requirement_core,
      get_fastqs_size_bytes_factor_none]
  · intro m previous d gs pg cpg cpz dt1 ir1 dt2 ir2 sorted o head
    simp only [get_memory_requirement_gb, get_memory_requirement_core,
      get_fastqs_size_bytes_factor_none]

/-- C1: in full mode with no memory override, `get_memory_requirement_gb`
returns the maximum of the barcoding, STAR and molecule-info estimates —
each built on the same `baseline_ram_estimator` value, the same FASTQ size,
the same reference index size and the same thread count — converted from
bytes to whole GB. -/
theorem memory_full_mode_is_max_of_three_estimators
    (fastq_directory : Option LatchDir) (genome_source : GenomeSource)
    (prebuilt_genome : Option GenomeType)
    (custom_prebuilt_genome custom_prebuilt_genome_zipped : Option RefPath)
    (downsample_to input_reads : Option ℤ) (sorted_bam : Bool) (head : HeadResult)
    (num_threads : ℤ) (star_index_size_bytes : ℚ)
    (hthreads : get_num_threads (some PIPseekerMode.full) fastq_directory none none =
      Except.ok num_threads)
    (hmap : mapping_ref_size_estimator genome_source prebuilt_genome custom_prebuilt_genome
      custom_prebuilt_genome_zipped head = Except.ok star_index_size_bytes) :
    get_memory_requirement_gb (some PIPseekerMode.full) none fastq_directory genome_source
        prebuilt_genome custom_prebuilt_genome custom_prebuilt_genome_zipped
        downsample_to input_reads sorted_bam none head =
      Except.ok
        ⌊max (max
            (barcoding_ram_estimator
              (baseline_ram_estimator
                ((get_fastqs_size_bytes fastq_directory
                    (get_downsample_factor downsample_to input_reads) : ℚ) / 1024 ^ 3)
                num_threads)
              num_threads)
            (star_ram_estimator star_index_size_bytes num_threads
              (baseline_ram_estimator
                ((get_fastqs_size_bytes fastq_directory
                    (get_downsample_factor downsample_to input_reads) : ℚ) / 1024 ^ 3)
                num_threads)
              sorted_bam 1.1))
          (molinfo_ram_estimator
            (baseline_ram_estimator
              ((get_fastqs_size_bytes fastq_directory
                  (get_downsample_factor downsample_to input_reads) : ℚ) / 1024 ^ 3)
              num_threads)
            (get_fastqs_size_bytes fastq_directory
              (get_downsample_factor downsample_to input_reads))
            num_threads false) / 1024 ^ 3⌋ := by
  simp only [get_memory_requirement_gb, truthy_int, Bool.false_eq_true, if_false,
    get_memory_requirement_core, hthreads, hmap]

/-- Witness for C1: an empty FASTQ directory with no reference genome gives
8 threads, star-index size 0, and the stated maximum. -/
theorem memory_full_mode_is_max_of_three_estimators_witness :
    get_num_threads (some PIPseekerMode.full) none none none = Except.ok 8 ∧
    mapping_ref_size_estimator GenomeSource.other none none none
      HeadResult.requestException = Except.ok 0 ∧
    get_memory_requirement_gb (some PIPseekerMode.full) none none GenomeSource.other
        none none none none none false none HeadResult.requestException =
      Except.ok
        ⌊max (max
            (barcoding_ram_estimator
              (baseline_ram_estimator
                ((get_fastqs_size_bytes none (get_downsample_factor none none) : ℚ) / 1024 ^ 3) 8)
              8)
            (star_ram_estimator 0 8
              (baseline_ram_estimator
                ((get_fastqs_size_bytes none (get_downsample_factor none none) : ℚ) / 1024 ^ 3) 8)
              false 1.1))
          (molinfo_ram_estimator
            (baseline_ram_estimator
              ((get_fastqs_size_bytes none (get_downsample_factor none none) : ℚ) / 1024 ^ 3) 8)
            (get_fastqs_size_bytes none (get_downsample_factor none none))
            8 false) / 1024 ^ 3⌋ := by
  refine ⟨?_, ?_, ?_⟩
  · rw [get_num_threads_full_eval]
    norm_num [threads_bucket, get_fastqs_size_bytes]
  · rfl
  · refine memory_full_mode_is_max_of_three_estimators none GenomeSource.other none none none
      none none false HeadResult.requestException 8 0 ?_ rfl
    rw [get_num_threads_full_eval]
    norm_num [threads_bucket, get_fastqs_size_bytes]

/-- C9 fails as stated: an archive whose filename carries an extra dot
before its `.zip` extension (for example `ref.v2.zip`, whose first suffix is
`.v2`) is reported at its raw byte size, not at 1.25 times it, because the
code compares only the first element of `PosixPath.suffixes` against
`.tar`/`.tar.gz`/`.zip`. -/
theorem mapping_ref_multidot_zip_counterexample :
    mapping_ref_size_estimator GenomeSource.custom_prebuilt_genome none none
        (some (RefPath.mk [Sfx.other, Sfx.zip] 1000000 (DirProbe.allSizes [])))
        HeadResult.requestException = Except.ok 1000000
      ∧ (1000000 : ℚ) ≠ 1.25 * 1000000 := by
  constructor
  · rfl
  · norm_num

/-- C9 as amended: for a custom-prebuilt-genome archive path, the 1.25
decompression factor applies exactly when the first dotted extension of the
filename is `.tar` or `.zip` (the literal `.tar.gz` in the code's comparison
list can never equal a single suffix); any other file with an extension —
including archives with an extra dot before the extension — is reported at
its raw byte size. -/
theorem mapping_ref_archive_first_suffix_rule (p : RefPath) (s0 : Sfx) (rest : List Sfx)
    (head : HeadResult) (hsuf : p.suffixes = s0 :: rest) :
    mapping_ref_size_estimator GenomeSource.custom_prebuilt_genome none none (some p) head =
      Except.ok (if s0 = Sfx.tar ∨ s0 = Sfx.tar_gz ∨ s0 = Sfx.zip
        then 1.25 * (p.file_size : ℚ)
        else (p.file_size : ℚ)) := by
  simp only [mapping_ref_size_estimator, get_mapping_reference_path, hsuf]
  rw [if_neg (by simp)]
  split_ifs <;> norm_num

/-- Witness for C9 as amended: a plain `.zip` archive of 1965039 bytes is
reported at 1.25 times its size. -/
theorem mapping_ref_archive_first_suffix_rule_witness :
    (RefPath.mk [Sfx.zip] 1965039 (DirProbe.allSizes [])).suffixes = [Sfx.zip] ∧
    mapping_ref_size_estimator GenomeSource.custom_prebuilt_genome none none
        (some (RefPath.mk [Sfx.zip] 1965039 (DirProbe.allSizes [])))
        HeadResult.requestException =
      Except.ok (if Sfx.zip = Sfx.tar ∨ Sfx.zip = Sfx.tar_gz ∨ Sfx.zip = Sfx.zip
        then 1.25 * ((1965039 : ℕ) : ℚ)
        else ((1965039 : ℕ) : ℚ)) :=
  ⟨rfl, mapping_ref_archive_first_suffix_rule
    (RefPath.mk [Sfx.zip] 1965039 (DirProbe.allSizes [])) Sfx.zip []
    HeadResult.requestException rfl⟩

/-- C6 is refuted by the code itself: `get_previous_dir_size` already
converts to GiB (despite its `_bytes` name) and every caller divides by
1024³ again, so for a previous directory of 13 GiB the cells-mode memory is
`min(int(13 / 1024 ** 6), 100) = 0` (the repository's own unit test expects
13), a 2 GiB previous directory still gets the smallest 8-thread bucket
(instead of the claimed 16 at the 1 GiB threshold), and the disk estimate
for a 100 GiB previous directory collapses to the 2 GB floor. -/
theorem cells_mode_double_scaling_eval :
    get_memory_requirement_gb (some PIPseekerMode.cells)
        (some [DirEntry.mk true false (13 * 1024 ^ 3)]) none GenomeSource.other
        none none none none none false none HeadResult.requestException = Except.ok 0
  ∧ (0 : ℤ) ≠ 13
  ∧ get_num_threads (some PIPseekerMode.cells) none
      (some [DirEntry.mk true false (2 * 1024 ^ 3)]) none = Except.ok 8
  ∧ get_disk_requirement_gb (some PIPseekerMode.cells)
      (some [DirEntry.mk true false (100 * 1024 ^ 3)]) none none none false none none
      GenomeSource.other none none none 1.5 none HeadResult.requestException =
      Except.ok 2 := by
  refine ⟨?_, by norm_num, ?_, ?_⟩
  · simp only [get_memory_requirement_gb, truthy_int, Bool.false_eq_true, if_false,
      get_memory_requirement_core, get_previous_dir_size, previous_dir_total_bytes]
    norm_num [Int.floor_eq_zero_iff]
  · rw [get_num_threads_cells_eval]
    norm_num [threads_bucket, get_previous_dir_size, previous_dir_total_bytes]
  · simp only [get_disk_requirement_gb, truthy_int, Bool.false_eq_true, if_false,
      get_disk_requirement_core, get_previous_dir_size, previous_dir_total_bytes]
    norm_num

/-- C3 fails as stated: the code adds one extra byte to the scaled sizes
before applying the safety margin (`... + star_index_size_bytes + 1`), which
the claim's formula omits.  At a FASTQ directory of exactly 4499489548 bytes
(unsorted, no reference) the code returns 23 622 320 128.5 / 1024³ → 22 GB,
while the claim's formula gives 23 622 320 127 / 1024³ → 21 GB. -/
theorem disk_full_plus_one_byte_counterexample :
    get_disk_requirement_gb (some PIPseekerMode.full) none
        (some [DirEntry.mk true true 4499489548]) none none false none none
        GenomeSource.other none none none 1.5 none HeadResult.requestException =
      Except.ok 22
  ∧ (22 : ℤ) ≠ ⌊max (((4499489548 : ℚ) * 3.5 + 0 + 0 + 0) * 1.5 / 1024 ^ 3) 2⌋ := by
  constructor
  · simp only [get_disk_requirement_gb, truthy_int, Bool.false_eq_true, if_false,
      get_disk_requirement_core, mapping_ref_other_eval, get_fastqs_size_bytes,
      get_downsample_factor]
    norm_num
  · norm_num

/-- C3 as amended: in full mode with no disk override the disk requirement
is (FASTQ bytes scaled by 3.5 unsorted / 12 sorted, plus SNT and HTO FASTQ
bytes, plus the reference index size scaled by 2.25 exactly when a prebuilt
genome or a zipped custom prebuilt genome is supplied, plus one extra byte)
multiplied by the safety margin (default 1.5), converted to whole GB, and
never below 2 GB. -/
theorem disk_full_mode_formula (fastq_directory snt_fastq hto_fastq : Option LatchDir)
    (sorted_bam : Bool) (downsample_to input_reads : Option ℤ)
    (genome_source : GenomeSource) (prebuilt_genome : Option GenomeType)
    (custom_prebuilt_genome custom_prebuilt_genome_zipped : Option RefPath)
    (safety_margin : ℚ) (head : HeadResult) (star_index_size_bytes : ℚ)
    (hmap : mapping_ref_size_estimator genome_source prebuilt_genome custom_prebuilt_genome
      custom_prebuilt_genome_zipped head = Except.ok star_index_size_bytes) :
    get_disk_requirement_gb (some PIPseekerMode.full) none fastq_directory snt_fastq
        hto_fastq sorted_bam downsample_to input_reads genome_source prebuilt_genome
        custom_prebuilt_genome custom_prebuilt_genome_zipped safety_margin none head =
      Except.ok
        ⌊max (((if sorted_bam then
            (get_fastqs_size_bytes fastq_directory
                (get_downsample_factor downsample_to input_reads) : ℚ) * 12 +
              (get_fastqs_size_bytes snt_fastq none : ℚ) +
              (get_fastqs_size_bytes hto_fastq none : ℚ)
          else
            (get_fastqs_size_bytes fastq_directory
                (get_downsample_factor downsample_to input_reads) : ℚ) * 3.5 +
              (get_fastqs_size_bytes snt_fastq none : ℚ) +
              (get_fastqs_size_bytes hto_fastq none : ℚ)) +
          (if prebuilt_genome.isSome || custom_prebuilt_genome_zipped.isSome then
            star_index_size_bytes * 2.25
          else star_index_size_bytes) + 1) * safety_margin / 1024 ^ 3) 2⌋ := by
  simp only [get_disk_requirement_gb, truthy_int, Bool.false_eq_true, if_false,
    get_disk_requirement_core, hmap]
  cases fastq_directory <;> cases snt_fastq <;> cases hto_fastq <;>
    simp [get_fastqs_size_bytes]

/-- Witness for C3 as amended: no FASTQs and no reference; the index size
hypothesis holds by evaluation and the formula instance is produced by the
theorem. -/
theorem disk_full_mode_formula_witness :
    mapping_ref_size_estimator GenomeSource.other none none none
        HeadResult.requestException = Except.ok 0 ∧
    get_disk_requirement_gb (some PIPseekerMode.full) none none none none false none none
        GenomeSource.other none none none 1.5 none HeadResult.requestException =
      Except.ok
        ⌊max (((if false then
            (get_fastqs_size_bytes none (get_downsample_factor none none) : ℚ) * 12 +
              (get_fastqs_size_bytes none none : ℚ) + (get_fastqs_size_bytes none none : ℚ)
          else
            (get_fastqs_size_bytes none (get_downsample_factor none none) : ℚ) * 3.5 +
              (get_fastqs_size_bytes none none : ℚ) + (get_fastqs_size_bytes none none : ℚ)) +
          (if (none : Option GenomeType).isSome || (none : Option RefPath).isSome then
            (0 : ℚ) * 2.25
          else (0 : ℚ)) + 1) * 1.5 / 1024 ^ 3) 2⌋ :=
  ⟨rfl, disk_full_mode_formula none none none false none none GenomeSource.other none
    none none 1.5 HeadResult.requestException 0 rfl⟩

/-- C4 fails as stated: `if override_disk_gb:` is a Python truthiness test,
so a supplied override of 0 does not bypass the size-based computation —
with no inputs the code returns the 2 GB minimum instead of the override. -/
theorem override_zero_disk_counterexample :
    get_disk_requirement_gb (some PIPseekerMode.full) none none none none false none none
        GenomeSource.other none none none 1.5 (some 0) HeadResult.requestException =
      Except.ok 2
  ∧ (2 : ℤ) ≠ 0 := by
  constructor
  · simp only [get_disk_requirement_gb, truthy_int, Bool.false_eq_true, if_false,
      get_disk_requirement_core, mapping_ref_other_eval, get_fastqs_size_bytes,
      get_downsample_factor]
    norm_num
  · norm_num

/-- C4 as amended: a supplied nonzero disk or memory override is returned
unchanged with no size-based computation (a zero override is treated as
absent because of Python truthiness), and a supplied CPU override — zero
included — is returned unchanged except that values above 64 are clamped
to 64. -/
theorem overrides_bypass_size_computation (pipseeker_mode : Option PIPseekerMode)
    (previous fastq_directory snt_fastq hto_fastq : Option LatchDir) (sorted_bam : Bool)
    (downsample_to input_reads : Option ℤ) (genome_source : GenomeSource)
    (prebuilt_genome : Option GenomeType)
    (custom_prebuilt_genome custom_prebuilt_genome_zipped : Option RefPath)
    (safety_margin : ℚ) (head : HeadResult) :
    (∀ override_disk_gb : ℤ, override_disk_gb ≠ 0 →
      get_disk_requirement_gb pipseeker_mode previous fastq_directory snt_fastq hto_fastq
          sorted_bam downsample_to input_reads genome_source prebuilt_genome
          custom_prebuilt_genome custom_prebuilt_genome_zipped safety_margin
          (some override_disk_gb) head = Except.ok override_disk_gb)
  ∧ (∀ override_ram_gb : ℤ, override_ram_gb ≠ 0 →
      get_memory_requirement_gb pipseeker_mode previous fastq_directory genome_source
          prebuilt_genome custom_prebuilt_genome custom_prebuilt_genome_zipped
          downsample_to input_reads sorted_bam (some override_ram_gb) head =
        Except.ok override_ram_gb)
  ∧ (∀ override_cpu : ℤ,
      get_num_threads pipseeker_mode fastq_directory previous (some override_cpu) =
        Except.ok (if override_cpu > 64 then 64 else override_cpu)) := by
  refine ⟨?_, ?_, ?_⟩
  · intro o ho
    simp [get_disk_requirement_gb, truthy_int, ho]
  · intro o ho
    simp [get_memory_requirement_gb, truthy_int, ho]
  · intro o
    by_cases h : o > 64 <;> simp [get_num_threads, h]

/-- Witness for C4 as amended: disk and memory overrides of 1000 are passed
through, and a CPU override of 1000 is clamped to 64. -/
theorem overrides_bypass_size_computation_witness :
    ((1000 : ℤ) ≠ 0 ∧
      get_disk_requirement_gb (some PIPseekerMode.full) none none none none false none none
          GenomeSource.other none none none 1.5 (some 1000) HeadResult.requestException =
        Except.ok 1000)
  ∧ get_num_threads (some PIPseekerMode.full) none none (some 1000) =
      Except.ok (if (1000 : ℤ) > 64 then 64 else 1000) :=
  ⟨⟨by norm_num,
    (overrides_bypass_size_computation (some PIPseekerMode.full) none none none none false
      none none GenomeSource.other none none none 1.5 HeadResult.requestException).1 1000
      (by norm_num)⟩,
    (overrides_bypass_size_computation (some PIPseekerMode.full) none none none none false
      none none GenomeSource.other none none none 1.5 HeadResult.requestException).2.2 1000⟩

/-- C5 fails as stated: with a supplied override of 1 GB (an input "with
overrides"), `get_disk_requirement_gb` returns 1, below its documented 2 GB
floor, because overrides pass through unclamped. -/
theorem disk_floor_override_counterexample :
    get_disk_requirement_gb (some PIPseekerMode.full) none none none none false none none
        GenomeSource.other none none none 1.5 (some 1) HeadResult.requestException =
      Except.ok 1
  ∧ ¬ (2 : ℤ) ≤ 1 := by
  constructor
  · simp [get_disk_requirement_gb, truthy_int]
  · norm_num

/-- C5 as amended: whenever the disk override is absent or zero (a nonzero
override is passed through even below the floor), every value returned by
`get_disk_requirement_gb` is at least 2 GB; and in full mode without a
memory override the returned memory, being the floor of the maximum of the
three estimators, is at least the whole-GB barcoding estimate. -/
theorem disk_and_memory_floors :
    (∀ (pipseeker_mode : Option PIPseekerMode)
      (previous fastq_directory snt_fastq hto_fastq : Option LatchDir) (sorted_bam : Bool)
      (downsample_to input_reads : Option ℤ) (genome_source : GenomeSource)
      (prebuilt_genome : Option GenomeType)
      (custom_prebuilt_genome custom_prebuilt_genome_zipped : Option RefPath)
      (safety_margin : ℚ) (override_disk_gb : Option ℤ) (head : HeadResult) (v : ℤ),
      truthy_int override_disk_gb = false →
      get_disk_requirement_gb pipseeker_mode previous fastq_directory snt_fastq hto_fastq
          sorted_bam downsample_to input_reads genome_source prebuilt_genome
          custom_prebuilt_genome custom_prebuilt_genome_zipped safety_margin
          override_disk_gb head = Except.ok v →
      2 ≤ v)
  ∧ (∀ (fastq_directory : Option LatchDir) (genome_source : GenomeSource)
      (prebuilt_genome : Option GenomeType)
      (custom_prebuilt_genome custom_prebuilt_genome_zipped : Option RefPath)
      (downsample_to input_reads : Option ℤ) (sorted_bam : Bool) (head : HeadResult)
      (num_threads v : ℤ),
      get_num_threads (some PIPseekerMode.full) fastq_directory none none =
        Except.ok num_threads →
      get_memory_requirement_gb (some PIPseekerMode.full) none fastq_directory genome_source
          prebuilt_genome custom_prebuilt_genome custom_prebuilt_genome_zipped
          downsample_to input_reads sorted_bam none head = Except.ok v →
      ⌊barcoding_ram_estimator
          (baseline_ram_estimator
            ((get_fastqs_size_bytes fastq_directory
                (get_downsample_factor downsample_to input_reads) : ℚ) / 1024 ^ 3)
            num_threads)
          num_threads / 1024 ^ 3⌋ ≤ v) := by
  constructor
  · intro m previous d snt hto sorted dt ir gs pg cpg cpz margin o head v ho h
    rw [get_disk_requirement_gb, ho] at h
    simp only [Bool.false_eq_true, if_false, get_disk_requirement_core] at h
    cases m with
    | none => simp at h
    | some mode =>
      cases mode with
      | full =>
        rcases hmap : mapping_ref_size_estimator gs pg cpg cpz head with e | S <;>
          rw [hmap] at h
        · simp at h
        · simp only [Except.ok.injEq] at h
          subst h
          refine Int.le_floor.mpr ?_
          exact le_trans (by norm_num) (le_max_right _ 2)
      | cells =>
        cases previous with
        | none => simp at h
        | some prev =>
          simp only [Except.ok.injEq] at h
          subst h
          refine Int.le_floor.mpr ?_
          exact le_trans (by norm_num) (le_max_right _ 2)
      | buildmapref =>
        simp only [Except.ok.injEq] at h
        omega
  · intro d gs pg cpg cpz dt ir sorted head num_threads v hthreads h
    simp only [get_memory_requirement_gb, truthy_int, Bool.false_eq_true, if_false,
      get_memory_requirement_core, hthreads] at h
    rcases hmap : mapping_ref_size_estimator gs pg cpg cpz head with e | S <;>
      rw [hmap] at h
    · simp at h
    · simp only [Except.ok.injEq] at h
      subst h
      refine Int.floor_le_floor ?_
      have hb : barcoding_ram_estimator
          (baseline_ram_estimator
            ((get_fastqs_size_bytes d (get_downsample_factor dt ir) : ℚ) / 1024 ^ 3)
            num_threads) num_threads ≤
          max (max (barcoding_ram_estimator
              (baseline_ram_estimator
                ((get_fastqs_size_bytes d (get_downsample_factor dt ir) : ℚ) / 1024 ^ 3)
                num_threads) num_threads)
            (star_ram_estimator S num_threads
              (baseline_ram_estimator
                ((get_fastqs_size_bytes d (get_downsample_factor dt ir) : ℚ) / 1024 ^ 3)
                num_threads) sorted 1.1))
          (molinfo_ram_estimator
            (baseline_ram_estimator
              ((get_fastqs_size_bytes d (get_downsample_factor dt ir) : ℚ) / 1024 ^ 3)
              num_threads)
            (get_fastqs_size_bytes d (get_downsample_factor dt ir)) num_threads false) :=
        le_trans (le_max_left _ _) (le_max_left _ _)
      gcongr

/-- Witness for C5 as amended: absent override in full mode with no inputs
gives 2 GB, and the memory bound holds at the same inputs. -/
theorem disk_and_memory_floors_witness :
    (truthy_int none = false ∧
      get_disk_requirement_gb (some PIPseekerMode.full) none none none none false none none
          GenomeSource.other none none none 1.5 none HeadResult.requestException =
        Except.ok 2 ∧ (2 : ℤ) ≤ 2)
  ∧ ⌊barcoding_ram_estimator
        (baseline_ram_estimator
          ((get_fastqs_size_bytes none (get_downsample_factor none none) : ℚ) / 1024 ^ 3) 8)
        8 / 1024 ^ 3⌋ ≤ 38 := by
  have hdisk : get_disk_requirement_gb (some PIPseekerMode.full) none none none none false
      none none GenomeSource.other none none none 1.5 none HeadResult.requestException =
      Except.ok 2 := by
    simp only [get_disk_requirement_gb, truthy_int, Bool.false_eq_true, if_false,
      get_disk_requirement_core, mapping_ref_other_eval, get_fastqs_size_bytes,
      get_downsample_factor]
    norm_num
  have hthreads : get_num_threads (some PIPseekerMode.full) none none none =
      Except.ok 8 := by
    rw [get_num_threads_full_eval]
    norm_num [threads_bucket, get_fastqs_size_bytes]
  have hmem : get_memory_requirement_gb (some PIPseekerMode.full) none none
      GenomeSource.other none none none none none false none HeadResult.requestException =
      Except.ok 38 := by
    simp only [get_memory_requirement_gb, truthy_int, Bool.false_eq_true, if_false,
      get_memory_requirement_core, hthreads, mapping_ref_other_eval,
      get_fastqs_size_bytes, get_downsample_factor]
    norm_num [barcoding_ram_estimator, baseline_ram_estimator, star_ram_estimator,
      molinfo_ram_estimator]
  refine ⟨⟨rfl, hdisk, disk_and_memory_floors.1 (some PIPseekerMode.full) none none none
    none false none none GenomeSource.other none none none 1.5 none
    HeadResult.requestException 2 rfl hdisk⟩, ?_⟩
  exact disk_and_memory_floors.2 none GenomeSource.other none none none none none false
    HeadResult.requestException 8 38 hthreads hmem
